import Mathlib

/-!
Shallow embedding of `src/pydaemon.py`.

The PID file is modelled as `Option String` (the content of the file at the
configured path, or `none` when the file does not exist).  The OS process
layer is modelled by oracles: the result of each `os.kill` call is supplied
as a `KillRes` value, and the PIDs handed out by `os.fork` are parameters.
Side effects (PID-file writes/removals, log calls, the payload invocation)
are recorded in an event trace.
-/

namespace Pydaemon

/-- The whitespace characters removed by Python `str.strip()` (src line 130). -/
def isPyWs (c : Char) : Bool :=
  c = ' ' || c = '\t' || c = '\n' || c = '\r' || c = '\x0b' || c = '\x0c'

/-- `str.strip()` on the character list of the file contents: drop whitespace
from the front, then from the back. -/
def pyStripList (l : List Char) : List Char :=
  ((l.dropWhile isPyWs).reverse.dropWhile isPyWs).reverse

/-- `str.strip()` (src line 130). -/
def pyStrip (s : String) : String := ⟨pyStripList s.data⟩

/-- Numeric value of an ASCII digit character. -/
def digitVal (c : Char) : Nat := c.toNat - 48

/-- Tail of the digit part of the Python `int()` grammar: further digits, with
single underscores allowed only between digits. -/
def pyDigitsAux : Nat → List Char → Option Nat
  | acc, [] => some acc
  | acc, c :: rest =>
    if c.isDigit then pyDigitsAux (acc * 10 + digitVal c) rest
    else if c = '_' then
      match rest with
      | [] => none
      | d :: rest2 => if d.isDigit then pyDigitsAux (acc * 10 + digitVal d) rest2 else none
    else none

/-- Digit part of the Python `int()` grammar: at least one digit, underscores
only between digits. -/
def pyDigits : List Char → Option Nat
  | [] => none
  | c :: rest => if c.isDigit then pyDigitsAux (digitVal c) rest else none

/-- Python `int(s)` on an already-stripped string (src line 132): an optional
sign followed by digits; `none` where `int()` raises `ValueError`. -/
def pyInt? (s : String) : Option Int :=
  match s.data with
  | [] => none
  | c :: rest =>
    if c = '+' then (pyDigits rest).map (fun n => (n : Int))
    else if c = '-' then (pyDigits rest).map (fun n => -(n : Int))
    else (pyDigits (c :: rest)).map (fun n => (n : Int))

/-- Decimal digit list of a natural number, least significant digit last:
the text produced by Python `str(pid)` for the nonnegative pid written by
`create_pid_file` (src line 113). -/
def natDigits (n : Nat) : List Char :=
  if _h : n < 10 then [Char.ofNat (48 + n)]
  else natDigits (n / 10) ++ [Char.ofNat (48 + n % 10)]
termination_by n
decreasing_by exact Nat.div_lt_self (by omega) (by omega)

/-- Python `str(pid)`. -/
def pyStr (n : Nat) : String := ⟨natDigits n⟩

/-- Severity levels of the logging sink. -/
inductive Level
  | debug
  | info
  | warning
  | error
  | critical
  deriving DecidableEq

/-- Which of the three processes of the double-fork sequence performs an
effect: the original parent, the intermediate first child, or the surviving
grandchild daemon. -/
inductive Role
  | parent
  | firstChild
  | grandchild
  deriving DecidableEq

/-- Observable events of a run: log calls, the payload invocation, and
PID-file writes and removals (tagged with the process that performs them). -/
inductive Ev
  | log (lvl : Level) (msg : String)
  | payloadRun
  | pidWrite (w : Role) (content : String)
  | pidRemove
  deriving DecidableEq

/-- Effect of one event on the PID file. -/
def applyEv (fs : Option String) : Ev → Option String
  | Ev.pidWrite _ c => some c
  | Ev.pidRemove => none
  | _ => fs

/-- Replay a trace of events over an initial PID-file state. -/
def replay (fs : Option String) (tr : List Ev) : Option String := tr.foldl applyEv fs

/-- `get_pid` (src lines 115-137): `-1` when the file does not exist
(`FileNotFoundError`) or when `int(pid.strip())` raises `ValueError`;
otherwise the parsed integer, returned with no further validation. -/
def get_pid (fs : Option String) : Int :=
  match fs with
  | none => -1
  | some s =>
    match pyInt? (pyStrip s) with
    | none => -1
    | some n => n

/-- `create_pid_file` (src lines 104-113): open for writing (create or
truncate) and write `str(pid)`. -/
def create_pid_file (pid : Nat) : Option String := some (pyStr pid)

/-- Result of one process path through `fork` (src lines 71-102): the
process either exits via `sys.exit` or returns a value, having possibly
changed the PID file and emitted events. -/
inductive ForkOutcome
  | exited (fs : Option String) (tr : List Ev)
  | returned (v : Int) (fs : Option String) (tr : List Ev)
  deriving DecidableEq

/-- The value a `fork` path returns, if it returns at all. -/
def ForkOutcome.retVal : ForkOutcome → Option Int
  | ForkOutcome.exited _ _ => none
  | ForkOutcome.returned v _ _ => some v

/-- PID-file state after a `fork` path. -/
def ForkOutcome.fsAfter : ForkOutcome → Option String
  | ForkOutcome.exited f _ => f
  | ForkOutcome.returned _ f _ => f

/-- Events emitted along a `fork` path. -/
def ForkOutcome.events : ForkOutcome → List Ev
  | ForkOutcome.exited _ t => t
  | ForkOutcome.returned _ _ t => t

/-- One process path through `fork` (src lines 71-102), determined by the
values `r1` and `r2` that the two `os.fork()` calls return on this path
(`os.fork` returns the child's positive PID in the parent and `0` in the
child).  The original parent (`r1 > 0`) exits at once; the first child
(`r1 = 0`, `r2 > 0`, where `r2` is the grandchild's actual PID) runs
`create_pid_file(pid_file, pid)` with `pid = r2` and exits; the grandchild
(`r1 = 0`, `r2 = 0`) redirects stdout/stderr and executes `return pid`
with the local `pid` holding `r2`. -/
def forkPath (fs : Option String) (r1 r2 : Nat) : ForkOutcome :=
  if 0 < r1 then ForkOutcome.exited fs []
  else if 0 < r2 then
    ForkOutcome.exited (create_pid_file r2) [Ev.pidWrite Role.firstChild (pyStr r2)]
  else
    ForkOutcome.returned (r2 : Int)
      fs [Ev.log Level.debug "Redirecting stdout and stderr to /dev/null"]

/-- Result of `start`: exit code, final PID-file state, and event trace of
the run (the first child's PID-file write followed by the surviving
daemon's events). -/
structure RunResult where
  code : Int
  fs : Option String
  tr : List Ev
  deriving DecidableEq

/-- `start` (src lines 9-38), with `g` the actual PID the OS assigns to the
grandchild.  If `open(pid_file)` succeeds (the file exists, whatever its
content) `start` logs and returns 0 at once.  Otherwise it runs `fork`:
the first-child path (second `os.fork` returned `g` there) writes the PID
file and exits, the grandchild path continues in `start`, runs the app,
removes the PID file and returns 0. -/
def start (fs : Option String) (g : Nat) : RunResult :=
  match fs with
  | some s =>
    { code := 0, fs := some s,
      tr := [Ev.log Level.info ("Process already exists with PID: " ++ s ++ "... Exiting")] }
  | none =>
    let fc := forkPath none 0 g
    { code := 0,
      fs := replay fc.fsAfter [Ev.payloadRun, Ev.pidRemove],
      tr := fc.events ++ [Ev.payloadRun, Ev.pidRemove] }

/-- Result of one `os.kill` call, as seen by the caller: success, or the
exception the call raised (`ProcessLookupError` or `PermissionError`). -/
inductive KillRes
  | ok
  | noSuch
  | permErr
  deriving DecidableEq

/-- The OS oracle for one `stop` call: `probe` is the result of
`os.kill(pid, 0)` and `kills i` the result of the `i`-th
`os.kill(pid, SIGKILL)` of the retry loop. -/
structure StopEnv where
  probe : KillRes
  kills : Nat → KillRes

/-- How `stop` finishes: a returned exit code, or an uncaught exception
propagating out (the code catches only `ProcessLookupError`). -/
inductive StopOutcome
  | ret (code : Int)
  | exc
  deriving DecidableEq

/-- Result of `stop`: outcome, final PID-file state, event trace. -/
structure StopResult where
  out : StopOutcome
  fs : Option String
  tr : List Ev

/-- Outcome of the `for _ in range(10)` SIGKILL loop (src lines 59-61),
scanning attempt results from index `i` with `fuel` iterations left:
`exhausted` when every attempt returns normally (the loop's `else` runs),
`gone` when an attempt raises `ProcessLookupError`, `perm` when one raises
`PermissionError` (uncaught). -/
inductive LoopRes
  | exhausted
  | gone
  | perm
  deriving DecidableEq

/-- The SIGKILL retry loop of `stop`. -/
def killLoopAux (kills : Nat → KillRes) : Nat → Nat → LoopRes
  | _, 0 => LoopRes.exhausted
  | i, fuel + 1 =>
    match kills i with
    | KillRes.ok => killLoopAux kills (i + 1) fuel
    | KillRes.noSuch => LoopRes.gone
    | KillRes.permErr => LoopRes.perm

/-- `stop` (src lines 40-69).  `get_pid` equal to `-1` returns 1 at once.
Then `os.kill(pid, 0)`: `ProcessLookupError` takes the stale-file branch
(warn, remove, return 0); `PermissionError` is not caught and propagates;
on success the ten-attempt SIGKILL loop runs, where `ProcessLookupError`
means the process died (info, remove, return 0), completion of all ten
iterations runs the loop's `else` (error, return 1, file left in place),
and `PermissionError` again propagates. -/
def stop (fs : Option String) (env : StopEnv) : StopResult :=
  if get_pid fs = -1 then
    { out := StopOutcome.ret 1, fs := fs, tr := [] }
  else
    match env.probe with
    | KillRes.noSuch =>
      { out := StopOutcome.ret 0, fs := none,
        tr := [Ev.log Level.warning
                 ("Process " ++ toString (get_pid fs) ++ " does not exist. Removing old PID file."),
               Ev.pidRemove] }
    | KillRes.permErr => { out := StopOutcome.exc, fs := fs, tr := [] }
    | KillRes.ok =>
      match killLoopAux env.kills 0 10 with
      | LoopRes.gone =>
        { out := StopOutcome.ret 0, fs := none,
          tr := [Ev.log Level.info
                   ("Process " ++ toString (get_pid fs) ++ " is now terminated. Removing PID file."),
                 Ev.pidRemove] }
      | LoopRes.exhausted =>
        { out := StopOutcome.ret 1, fs := fs,
          tr := [Ev.log Level.error ("Unable to kill process " ++ toString (get_pid fs))] }
      | LoopRes.perm => { out := StopOutcome.exc, fs := fs, tr := [] }

/-! Helper lemmas about stripping and parsing. -/

lemma dropWhile_append_all {p : Char → Bool} (l1 l2 : List Char)
    (h : ∀ c ∈ l1, p c = true) :
    (l1 ++ l2).dropWhile p = l2.dropWhile p := by
  induction l1 with
  | nil => simp
  | cons c t ih =>
    simp only [List.cons_append, List.dropWhile_cons, h c (List.mem_cons_self c t), if_true]
    exact ih (fun x hx => h x (List.mem_cons_of_mem c hx))

lemma dropWhile_all_pos {p : Char → Bool} (l : List Char) (h : ∀ c ∈ l, p c = true) :
    l.dropWhile p = [] := by
  have := dropWhile_append_all l [] h
  simpa using this

lemma dropWhile_all_neg {p : Char → Bool} (l : List Char) (h : ∀ c ∈ l, p c = false) :
    l.dropWhile p = l := by
  cases l with
  | nil => rfl
  | cons c t => simp [List.dropWhile_cons, h c (List.mem_cons_self c t)]

/-- Stripping removes exactly a whitespace sandwich around non-whitespace text. -/
lemma pyStripList_sandwich (ws1 ws2 m : List Char)
    (h1 : ∀ c ∈ ws1, isPyWs c = true) (h2 : ∀ c ∈ ws2, isPyWs c = true)
    (hm : ∀ c ∈ m, isPyWs c = false) :
    pyStripList (ws1 ++ m ++ ws2) = m := by
  unfold pyStripList
  rw [List.append_assoc, dropWhile_append_all ws1 (m ++ ws2) h1]
  cases m with
  | nil =>
    simp only [List.nil_append]
    rw [dropWhile_all_pos ws2 h2]
    simp
  | cons c t =>
    have hc : isPyWs c = false := hm c (List.mem_cons_self c t)
    rw [show (c :: t) ++ ws2 = c :: (t ++ ws2) from rfl, List.dropWhile_cons]
    simp only [hc, Bool.false_eq_true, if_false]
    rw [show c :: (t ++ ws2) = (c :: t) ++ ws2 from rfl, List.reverse_append]
    rw [dropWhile_append_all ws2.reverse (c :: t).reverse
      (fun x hx => h2 x (List.mem_reverse.mp hx))]
    rw [dropWhile_all_neg ((c :: t).reverse) (fun x hx => hm x (List.mem_reverse.mp hx))]
    exact List.reverse_reverse _

/-- The ten relevant facts about ASCII digit characters. -/
lemma digitChar_facts : ∀ d, d < 10 →
    ((Char.ofNat (48 + d)).isDigit = true ∧ isPyWs (Char.ofNat (48 + d)) = false ∧
      digitVal (Char.ofNat (48 + d)) = d) := by decide

lemma natDigits_lt {n : Nat} (h : n < 10) : natDigits n = [Char.ofNat (48 + n)] := by
  rw [natDigits.eq_def]
  simp [h]

lemma natDigits_ge {n : Nat} (h : 10 ≤ n) :
    natDigits n = natDigits (n / 10) ++ [Char.ofNat (48 + n % 10)] := by
  rw [natDigits.eq_def]
  simp [Nat.not_lt.mpr h]

lemma natDigits_ne_nil (n : Nat) : natDigits n ≠ [] := by
  by_cases h : n < 10
  · rw [natDigits_lt h]; simp
  · rw [natDigits_ge (Nat.le_of_not_lt h)]; simp

lemma natDigits_all_digit (n : Nat) :
    ∀ c ∈ natDigits n, c.isDigit = true ∧ isPyWs c = false := by
  induction n using Nat.strong_induction_on with
  | _ n ih =>
    by_cases h : n < 10
    · rw [natDigits_lt h]
      intro c hc
      simp only [List.mem_singleton] at hc
      subst hc
      exact ⟨(digitChar_facts n h).1, (digitChar_facts n h).2.1⟩
    · rw [natDigits_ge (Nat.le_of_not_lt h)]
      intro c hc
      rw [List.mem_append] at hc
      rcases hc with hc | hc
      · exact ih (n / 10) (Nat.div_lt_self (by omega) (by omega)) c hc
      · simp only [List.mem_singleton] at hc
        subst hc
        have hm : n % 10 < 10 := Nat.mod_lt _ (by omega)
        exact ⟨(digitChar_facts _ hm).1, (digitChar_facts _ hm).2.1⟩

lemma foldl_natDigits (n : Nat) :
    ∀ a : Nat, (natDigits n).foldl (fun x c => x * 10 + digitVal c) a
      = a * 10 ^ (natDigits n).length + n := by
  induction n using Nat.strong_induction_on with
  | _ n ih =>
    intro a
    by_cases h : n < 10
    · rw [natDigits_lt h]
      simp only [List.foldl_cons, List.foldl_nil, List.length_singleton, pow_one,
        (digitChar_facts n h).2.2]
    · have h10 : 10 ≤ n := Nat.le_of_not_lt h
      rw [natDigits_ge h10, List.foldl_append, List.length_append]
      simp only [List.foldl_cons, List.foldl_nil, List.length_singleton]
      rw [ih (n / 10) (Nat.div_lt_self (by omega) (by omega)) a]
      rw [(digitChar_facts (n % 10) (Nat.mod_lt _ (by omega))).2.2]
      have hdm : 10 * (n / 10) + n % 10 = n := Nat.div_add_mod n 10
      calc (a * 10 ^ (natDigits (n / 10)).length + n / 10) * 10 + n % 10
          = a * (10 ^ (natDigits (n / 10)).length * 10) + (10 * (n / 10) + n % 10) := by ring
        _ = a * 10 ^ ((natDigits (n / 10)).length + 1) + n := by rw [hdm, pow_succ]

lemma pyDigitsAux_cons_digit (acc : Nat) (c : Char) (t : List Char) (hc : c.isDigit = true) :
    pyDigitsAux acc (c :: t) = pyDigitsAux (acc * 10 + digitVal c) t := by
  cases t <;> simp [pyDigitsAux, hc]

lemma pyDigitsAux_all (l : List Char) :
    ∀ acc, (∀ c ∈ l, c.isDigit = true) →
      pyDigitsAux acc l = some (l.foldl (fun x c => x * 10 + digitVal c) acc) := by
  induction l with
  | nil => intro acc _; rfl
  | cons c t ih =>
    intro acc h
    have hc : c.isDigit = true := h c (List.mem_cons_self c t)
    rw [pyDigitsAux_cons_digit acc c t hc, List.foldl_cons]
    exact ih _ (fun x hx => h x (List.mem_cons_of_mem c hx))

lemma pyDigits_all (l : List Char) (hne : l ≠ []) (h : ∀ c ∈ l, c.isDigit = true) :
    pyDigits l = some (l.foldl (fun x c => x * 10 + digitVal c) 0) := by
  cases l with
  | nil => exact absurd rfl hne
  | cons c t =>
    have hc : c.isDigit = true := h c (List.mem_cons_self c t)
    simp only [pyDigits, hc, if_true, List.foldl_cons]
    rw [pyDigitsAux_all t (digitVal c) (fun x hx => h x (List.mem_cons_of_mem c hx))]
    simp

lemma pyInt_of_digits (l : List Char) (hne : l ≠ []) (h : ∀ c ∈ l, c.isDigit = true) :
    pyInt? ⟨l⟩ = some ((l.foldl (fun x c => x * 10 + digitVal c) 0 : Nat) : Int) := by
  cases l with
  | nil => exact absurd rfl hne
  | cons c t =>
    have hc : c.isDigit = true := h c (List.mem_cons_self c t)
    have hplus : ¬ (c = '+') := by
      intro e; subst e; exact absurd hc (by decide)
    have hminus : ¬ (c = '-') := by
      intro e; subst e; exact absurd hc (by decide)
    have hstep : pyInt? ⟨c :: t⟩ =
        if c = '+' then (pyDigits t).map (fun n => (n : Int))
        else if c = '-' then (pyDigits t).map (fun n => -(n : Int))
        else (pyDigits (c :: t)).map (fun n => (n : Int)) := rfl
    rw [hstep, if_neg hplus, if_neg hminus, pyDigits_all (c :: t) (by simp) h]
    rfl

lemma pyStr_roundtrip (n : Nat) : pyInt? (pyStr n) = some (n : Int) := by
  have h := pyInt_of_digits (natDigits n) (natDigits_ne_nil n)
    (fun c hc => (natDigits_all_digit n c hc).1)
  rw [show pyStr n = (⟨natDigits n⟩ : String) from rfl, h]
  have hf := foldl_natDigits n 0
  simp only [Nat.zero_mul, Nat.zero_add] at hf
  rw [hf]

lemma pyStrip_pyStr (n : Nat) : pyStrip (pyStr n) = pyStr n := by
  show (⟨pyStripList (natDigits n)⟩ : String) = ⟨natDigits n⟩
  have h := pyStripList_sandwich [] [] (natDigits n) (by simp) (by simp)
    (fun c hc => (natDigits_all_digit n c hc).2)
  simp only [List.nil_append, List.append_nil] at h
  rw [h]

lemma get_pid_of_parse (s : String) (n : Int) (h : pyInt? (pyStrip s) = some n) :
    get_pid (some s) = n := by
  show (match pyInt? (pyStrip s) with | none => (-1 : Int) | some n => n) = n
  rw [h]

lemma get_pid_none_parse (s : String) (h : pyInt? (pyStrip s) = none) :
    get_pid (some s) = -1 := by
  show (match pyInt? (pyStrip s) with | none => (-1 : Int) | some n => n) = -1
  rw [h]

lemma get_pid_pyStr (n : Nat) : get_pid (some (pyStr n)) = (n : Int) :=
  get_pid_of_parse _ _ (by rw [pyStrip_pyStr, pyStr_roundtrip])

/-! Helper lemmas about the SIGKILL retry loop. -/

lemma killLoopAux_exhausted (kills : Nat → KillRes) :
    ∀ fuel i, (∀ j, j < fuel → kills (i + j) = KillRes.ok) →
      killLoopAux kills i fuel = LoopRes.exhausted := by
  intro fuel
  induction fuel with
  | zero => intro i _; rfl
  | succ f ih =>
    intro i h
    have h0 : kills i = KillRes.ok := by simpa using h 0 (Nat.succ_pos f)
    simp only [killLoopAux, h0]
    apply ih
    intro j hj
    rw [show i + 1 + j = i + (j + 1) by omega]
    exact h (j + 1) (by omega)

lemma killLoopAux_gone (kills : Nat → KillRes) :
    ∀ k fuel i, k < fuel → kills (i + k) = KillRes.noSuch →
      (∀ j, j < k → kills (i + j) = KillRes.ok) →
      killLoopAux kills i fuel = LoopRes.gone := by
  intro k
  induction k with
  | zero =>
    intro fuel i hk hno _
    cases fuel with
    | zero => omega
    | succ f =>
      have h0 : kills i = KillRes.noSuch := by simpa using hno
      simp only [killLoopAux, h0]
  | succ k ih =>
    intro fuel i hk hno hok
    cases fuel with
    | zero => omega
    | succ f =>
      have h0 : kills i = KillRes.ok := by simpa using hok 0 (Nat.succ_pos k)
      simp only [killLoopAux, h0]
      apply ih f (i + 1) (by omega)
      · rw [show i + 1 + k = i + (k + 1) by omega]
        exact hno
      · intro j hj
        rw [show i + 1 + j = i + (j + 1) by omega]
        exact hok (j + 1) (by omega)

/-! Claim theorems. -/

/-- C1: for every PID-file path at which a file exists (whatever the file's
contents), `start` returns 0 without invoking the payload and without
modifying or removing the existing PID file. -/
theorem start_existing_file_returns_zero_without_payload (s : String) (g : Nat) :
    (start (some s) g).code = 0 ∧
    (start (some s) g).fs = some s ∧
    Ev.payloadRun ∉ (start (some s) g).tr ∧
    Ev.pidRemove ∉ (start (some s) g).tr ∧
    ∀ w c, Ev.pidWrite w c ∉ (start (some s) g).tr := by
  refine ⟨rfl, rfl, ?_, ?_, ?_⟩ <;> simp [start]

/-- C2: in `stop`'s termination loop over a live target, if some SIGKILL
attempt (of the at most 10, the preceding ones having returned normally)
raises `ProcessLookupError`, the PID file is removed and `stop` returns 0;
if all 10 attempts complete without that condition, `stop` returns 1 and
the PID file is left in place unchanged. -/
theorem stop_kill_loop_behavior (s : String) (p : Int)
    (hparse : pyInt? (pyStrip s) = some p) (hp : p ≠ -1)
    (env : StopEnv) (hprobe : env.probe = KillRes.ok) :
    ((∃ i, i < 10 ∧ env.kills i = KillRes.noSuch ∧ ∀ j, j < i → env.kills j = KillRes.ok) →
      (stop (some s) env).out = StopOutcome.ret 0 ∧ (stop (some s) env).fs = none) ∧
    ((∀ j, j < 10 → env.kills j = KillRes.ok) →
      (stop (some s) env).out = StopOutcome.ret 1 ∧ (stop (some s) env).fs = some s) := by
  have hpid : get_pid (some s) = p := get_pid_of_parse s p hparse
  constructor
  · rintro ⟨i, hi, hno, hok⟩
    have hloop : killLoopAux env.kills 0 10 = LoopRes.gone := by
      apply killLoopAux_gone env.kills i 10 0 hi
      · simpa using hno
      · intro j hj
        simpa using hok j hj
    simp [stop, hpid, hp, hprobe, hloop]
  · intro hall
    have hloop : killLoopAux env.kills 0 10 = LoopRes.exhausted := by
      apply killLoopAux_exhausted env.kills 10 0
      intro j hj
      simpa using hall j hj
    simp [stop, hpid, hp, hprobe, hloop]

/-- C2 witness at a concrete input. -/
theorem stop_kill_loop_behavior_witness :
    (stop (some ⟨['4','2']⟩) ⟨KillRes.ok, fun _ => KillRes.noSuch⟩).out = StopOutcome.ret 0 ∧
    (stop (some ⟨['4','2']⟩) ⟨KillRes.ok, fun _ => KillRes.noSuch⟩).fs = none :=
  (stop_kill_loop_behavior ⟨['4','2']⟩ 42 (by decide) (by decide)
      ⟨KillRes.ok, fun _ => KillRes.noSuch⟩ rfl).1
    ⟨0, by omega, rfl, fun j hj => absurd hj (Nat.not_lt_zero j)⟩

/-- C3: for every PID file whose content parses to a (positive) PID for
which the probe signal reports no such process, `stop` removes the PID
file, logs a stale-record warning, and returns 0. -/
theorem stop_stale_pidfile_cleanup (s : String) (p : Int)
    (hparse : pyInt? (pyStrip s) = some p) (hpos : 0 < p)
    (env : StopEnv) (hprobe : env.probe = KillRes.noSuch) :
    (stop (some s) env).out = StopOutcome.ret 0 ∧
    (stop (some s) env).fs = none ∧
    Ev.log Level.warning ("Process " ++ toString p ++ " does not exist. Removing old PID file.")
      ∈ (stop (some s) env).tr := by
  have hpid : get_pid (some s) = p := get_pid_of_parse s p hparse
  have hp : p ≠ -1 := by omega
  simp [stop, hpid, hp, hprobe]

/-- C3 witness at a concrete input. -/
theorem stop_stale_pidfile_cleanup_witness :
    (stop (some ⟨['9','9']⟩) ⟨KillRes.noSuch, fun _ => KillRes.ok⟩).out = StopOutcome.ret 0 ∧
    (stop (some ⟨['9','9']⟩) ⟨KillRes.noSuch, fun _ => KillRes.ok⟩).fs = none ∧
    Ev.log Level.warning ("Process " ++ toString (99 : Int) ++ " does not exist. Removing old PID file.")
      ∈ (stop (some ⟨['9','9']⟩) ⟨KillRes.noSuch, fun _ => KillRes.ok⟩).tr :=
  stop_stale_pidfile_cleanup ⟨['9','9']⟩ 99 (by decide) (by decide)
    ⟨KillRes.noSuch, fun _ => KillRes.ok⟩ rfl

/-- C4: for every path at which no PID file exists, and for every PID file
whose trimmed content fails to parse as an integer, `stop` returns 1 and
performs no filesystem mutation. -/
theorem stop_missing_or_invalid_returns_one (fs : Option String)
    (h : fs = none ∨ ∃ s, fs = some s ∧ pyInt? (pyStrip s) = none) (env : StopEnv) :
    (stop fs env).out = StopOutcome.ret 1 ∧ (stop fs env).fs = fs ∧ (stop fs env).tr = [] := by
  have hpid : get_pid fs = -1 := by
    rcases h with rfl | ⟨s, rfl, hs⟩
    · rfl
    · exact get_pid_none_parse s hs
  simp [stop, hpid]

/-- C4 witness at a concrete input. -/
theorem stop_missing_or_invalid_returns_one_witness :
    (stop none ⟨KillRes.ok, fun _ => KillRes.ok⟩).out = StopOutcome.ret 1 ∧
    (stop none ⟨KillRes.ok, fun _ => KillRes.ok⟩).fs = none ∧
    (stop none ⟨KillRes.ok, fun _ => KillRes.ok⟩).tr = [] :=
  stop_missing_or_invalid_returns_one none (Or.inl rfl) ⟨KillRes.ok, fun _ => KillRes.ok⟩

/-- C5: with no existing PID file, a successful `start` produces the
PID-file write (performed by the first fork child, with the grandchild's
actual PID `g`) strictly before the payload invocation, and the PID file
present at payload time reads back as exactly `g`. -/
theorem start_writes_grandchild_pid_before_payload (g : Nat) (hg : 0 < g) :
    (start none g).tr =
      [Ev.pidWrite Role.firstChild (pyStr g), Ev.payloadRun, Ev.pidRemove] ∧
    get_pid (replay none ((start none g).tr.take 1)) = (g : Int) ∧
    (start none g).code = 0 := by
  have hfork : forkPath none 0 g =
      ForkOutcome.exited (create_pid_file g) [Ev.pidWrite Role.firstChild (pyStr g)] := by
    unfold forkPath
    rw [if_neg (by omega), if_pos hg]
  have htr : (start none g).tr =
      [Ev.pidWrite Role.firstChild (pyStr g), Ev.payloadRun, Ev.pidRemove] := by
    simp [start, hfork, ForkOutcome.events]
  refine ⟨htr, ?_, rfl⟩
  rw [htr]
  show get_pid (some (pyStr g)) = (g : Int)
  exact get_pid_pyStr g

/-- C5 witness at a concrete input. -/
theorem start_writes_grandchild_pid_before_payload_witness :
    0 < 12345 ∧
    ((start none 12345).tr =
        [Ev.pidWrite Role.firstChild (pyStr 12345), Ev.payloadRun, Ev.pidRemove] ∧
      get_pid (replay none ((start none 12345).tr.take 1)) = (12345 : Int) ∧
      (start none 12345).code = 0) :=
  ⟨by omega, start_writes_grandchild_pid_before_payload 12345 (by omega)⟩

/-- C6 counterexample: `fork` does not return the grandchild's PID.  In a
run where the OS assigned the grandchild the PID 7, the first-child path
(`forkPath fs 0 7`) exits without returning, and the surviving grandchild
path (`forkPath fs 0 0`, both `os.fork` calls returned 0 there) returns
the local `pid` value 0, not 7. -/
theorem fork_return_not_grandchild_pid :
    ForkOutcome.retVal (forkPath none 0 7) = none ∧
    ForkOutcome.retVal (forkPath none 0 0) = some 0 ∧
    ForkOutcome.retVal (forkPath none 0 0) ≠ some 7 := by decide

/-- C6 amended: `fork` returns control only in the grandchild path (both
fork results 0); the parent path and the first-child path terminate via
`sys.exit` (the first child writing the grandchild's PID to the PID file
first); but the value returned in the grandchild is 0 — the child-side
result of the second `os.fork` — not the grandchild's own PID. -/
theorem fork_roles_amended (fs : Option String) (r1 r2 : Nat) :
    forkPath fs (r1 + 1) r2 = ForkOutcome.exited fs [] ∧
    forkPath fs 0 (r2 + 1) =
      ForkOutcome.exited (create_pid_file (r2 + 1))
        [Ev.pidWrite Role.firstChild (pyStr (r2 + 1))] ∧
    (ForkOutcome.retVal (forkPath fs r1 r2) = none ∨
      ForkOutcome.retVal (forkPath fs r1 r2) = some 0) ∧
    ForkOutcome.retVal (forkPath fs 0 0) = some 0 := by
  refine ⟨?_, ?_, ?_, rfl⟩
  · unfold forkPath
    rw [if_pos (Nat.succ_pos r1)]
  · unfold forkPath
    rw [if_neg (by omega), if_pos (Nat.succ_pos r2)]
  · rcases r1 with _ | r1 <;> rcases r2 with _ | r2 <;>
      simp [forkPath, ForkOutcome.retVal, Nat.succ_pos]

/-- C7 counterexample: `get_pid` does not reject non-positive parsed
values.  A PID file containing "0" yields 0 (not the error sentinel -1),
and one containing "-3" yields -3. -/
theorem get_pid_zero_not_rejected :
    get_pid (some ⟨['0']⟩) = 0 ∧ get_pid (some ⟨['0']⟩) ≠ -1 ∧
    get_pid (some ⟨['-','3']⟩) = -3 := by decide

/-- C7 amended: `get_pid` returns the single in-band sentinel -1 both when
the file does not exist and when the trimmed content does not parse as an
integer (the two failures are conflated); any content that parses to an
integer — including zero and negative values — is returned as-is with no
positivity check, so content parsing to -1 is indistinguishable from the
failure cases. -/
theorem get_pid_sentinel_amended :
    get_pid none = -1 ∧
    (∀ s : String, pyInt? (pyStrip s) = none → get_pid (some s) = -1) ∧
    (∀ (s : String) (n : Int), pyInt? (pyStrip s) = some n → get_pid (some s) = n) :=
  ⟨rfl, fun s h => get_pid_none_parse s h, fun s n h => get_pid_of_parse s n h⟩

/-- C7 witness at concrete inputs. -/
theorem get_pid_sentinel_amended_witness :
    get_pid (some ⟨['a']⟩) = -1 ∧ get_pid (some ⟨['-','5']⟩) = -5 :=
  ⟨get_pid_sentinel_amended.2.1 ⟨['a']⟩ (by decide),
   get_pid_sentinel_amended.2.2 ⟨['-','5']⟩ (-5) (by decide)⟩

/-- C8: when the liveness probe raises `PermissionError` rather than
`ProcessLookupError`, `stop` does not take the stale-record branch: the
PID file is not removed, 0 is not returned, no event is emitted, and the
exception propagates out of `stop` as a distinct failure. -/
theorem stop_permission_error_propagates (s : String) (p : Int)
    (hparse : pyInt? (pyStrip s) = some p) (hp : p ≠ -1)
    (env : StopEnv) (hprobe : env.probe = KillRes.permErr) :
    (stop (some s) env).out = StopOutcome.exc ∧
    (stop (some s) env).out ≠ StopOutcome.ret 0 ∧
    (stop (some s) env).fs = some s ∧
    (stop (some s) env).tr = [] := by
  have hpid : get_pid (some s) = p := get_pid_of_parse s p hparse
  simp [stop, hpid, hp, hprobe]

/-- C8 witness at a concrete input. -/
theorem stop_permission_error_propagates_witness :
    (stop (some ⟨['7']⟩) ⟨KillRes.permErr, fun _ => KillRes.ok⟩).out = StopOutcome.exc ∧
    (stop (some ⟨['7']⟩) ⟨KillRes.permErr, fun _ => KillRes.ok⟩).out ≠ StopOutcome.ret 0 ∧
    (stop (some ⟨['7']⟩) ⟨KillRes.permErr, fun _ => KillRes.ok⟩).fs = some ⟨['7']⟩ ∧
    (stop (some ⟨['7']⟩) ⟨KillRes.permErr, fun _ => KillRes.ok⟩).tr = [] :=
  stop_permission_error_propagates ⟨['7']⟩ 7 (by decide) (by decide)
    ⟨KillRes.permErr, fun _ => KillRes.ok⟩ rfl

/-- C9: round-trip of the PID-file store — writing a positive pid with
`create_pid_file` and reading with `get_pid` yields exactly that pid, also
when the stored text carries surrounding whitespace, which the read
trims. -/
theorem pidfile_roundtrip (pid : Nat) (_hpos : 0 < pid) (ws1 ws2 : List Char)
    (h1 : ∀ c ∈ ws1, isPyWs c = true) (h2 : ∀ c ∈ ws2, isPyWs c = true) :
    get_pid (create_pid_file pid) = (pid : Int) ∧
    get_pid (some ⟨ws1 ++ (pyStr pid).data ++ ws2⟩) = (pid : Int) := by
  constructor
  · exact get_pid_pyStr pid
  · apply get_pid_of_parse
    have hstrip : pyStrip ⟨ws1 ++ (pyStr pid).data ++ ws2⟩ = pyStr pid := by
      show (⟨pyStripList (ws1 ++ natDigits pid ++ ws2)⟩ : String) = ⟨natDigits pid⟩
      rw [pyStripList_sandwich ws1 ws2 (natDigits pid) h1 h2
        (fun c hc => (natDigits_all_digit pid c hc).2)]
    rw [hstrip, pyStr_roundtrip]

/-- C9 witness at a concrete input. -/
theorem pidfile_roundtrip_witness :
    0 < 12345 ∧
    (get_pid (create_pid_file 12345) = (12345 : Int) ∧
      get_pid (some ⟨[' '] ++ (pyStr 12345).data ++ ['\n']⟩) = (12345 : Int)) :=
  ⟨by omega, pidfile_roundtrip 12345 (by omega) [' '] ['\n'] (by decide) (by decide)⟩

/-- C10: a PID file whose trimmed content does not parse as an integer, or
parses to the in-band sentinel -1, makes `start` return 0 without the
payload and `stop` return 1, with neither operation removing or modifying
the file. -/
theorem invalid_pidfile_blocks_start_and_stop (s : String)
    (h : pyInt? (pyStrip s) = none ∨ pyInt? (pyStrip s) = some (-1))
    (g : Nat) (env : StopEnv) :
    (start (some s) g).code = 0 ∧
    Ev.payloadRun ∉ (start (some s) g).tr ∧
    (start (some s) g).fs = some s ∧
    (stop (some s) env).out = StopOutcome.ret 1 ∧
    (stop (some s) env).fs = some s ∧
    (stop (some s) env).tr = [] := by
  have hpid : get_pid (some s) = -1 := by
    rcases h with h | h
    · exact get_pid_none_parse s h
    · exact get_pid_of_parse s (-1) h
  refine ⟨rfl, ?_, rfl, ?_, ?_, ?_⟩ <;> simp [start, stop, hpid]

/-- C10 witness at a concrete input. -/
theorem invalid_pidfile_blocks_start_and_stop_witness :
    (start (some ⟨['x','y']⟩) 5).code = 0 ∧
    Ev.payloadRun ∉ (start (some ⟨['x','y']⟩) 5).tr ∧
    (start (some ⟨['x','y']⟩) 5).fs = some ⟨['x','y']⟩ ∧
    (stop (some ⟨['x','y']⟩) ⟨KillRes.ok, fun _ => KillRes.ok⟩).out = StopOutcome.ret 1 ∧
    (stop (some ⟨['x','y']⟩) ⟨KillRes.ok, fun _ => KillRes.ok⟩).fs = some ⟨['x','y']⟩ ∧
    (stop (some ⟨['x','y']⟩) ⟨KillRes.ok, fun _ => KillRes.ok⟩).tr = [] :=
  invalid_pidfile_blocks_start_and_stop ⟨['x','y']⟩ (Or.inl (by decide)) 5
    ⟨KillRes.ok, fun _ => KillRes.ok⟩

end Pydaemon
